import Mathlib

/-!
# Verification of the WhatTheFlight geometry / matching engine

Shallow embedding of the core numeric logic of the repository:

* `src/app/api/flights/route.ts` — the Geo-Math helpers (`calculateBearing`,
  `calculateDistance`, `calculateElevation`), the OpenSky and ADSB Exchange
  record-to-flight mappings (including their filtering), and the
  sort-by-distance step.  JavaScript numbers are modelled as real numbers;
  `Math.atan2` and the JS `%` remainder are modelled explicitly.
* the two client pages (`part_002`, `part_003`) — angle normalisation,
  angular difference, compass smoothing (`smoothAngle`, with and without the
  dead zone), and the pointing-matcher effect.  These functions only use
  field arithmetic and comparisons, so they are embedded over `ℚ` to keep
  them executable.
-/

open Real

namespace WTF

/-! ## JavaScript numeric primitives (real-valued model) -/

/-- Truncation toward zero, as applied by the JavaScript `%` operator. -/
noncomputable def jsTrunc (x : ℝ) : ℝ :=
  if 0 ≤ x then (⌊x⌋ : ℝ) else (⌈x⌉ : ℝ)

/-- The JavaScript remainder `a % b` (sign of the dividend, truncated
division) for finite arguments. -/
noncomputable def jsMod (a b : ℝ) : ℝ :=
  a - b * jsTrunc (a / b)

/-- Model of `Math.atan2 y x` on the reals (no signed zero, no NaN): the angle of the
point `(x, y)` in `(-π, π]`. -/
noncomputable def atan2 (y x : ℝ) : ℝ :=
  if 0 < x then arctan (y / x)
  else if x < 0 then
    (if 0 ≤ y then arctan (y / x) + π else arctan (y / x) - π)
  else
    (if 0 < y then π / 2 else if y < 0 then -(π / 2) else 0)

/-! ## Geo-Math (`src/app/api/flights/route.ts`)

The same three functions appear verbatim in both provider route files; they
are embedded once. -/

/-- Helper `toRad`: degrees to radians. -/
noncomputable def toRad (deg : ℝ) : ℝ := deg * π / 180

/-- Helper `toDeg`: radians to degrees. -/
noncomputable def toDeg (rad : ℝ) : ℝ := rad * 180 / π

/-- Function `calculateBearing(lat1, lon1, lat2, lon2)`: great-circle initial bearing
in degrees, normalised by `(bearing + 360) % 360`. -/
noncomputable def calculateBearing (lat1 lon1 lat2 lon2 : ℝ) : ℝ :=
  let dLon := toRad (lon2 - lon1)
  let lat1Rad := toRad lat1
  let lat2Rad := toRad lat2
  let y := Real.sin dLon * Real.cos lat2Rad
  let x := Real.cos lat1Rad * Real.sin lat2Rad -
    Real.sin lat1Rad * Real.cos lat2Rad * Real.cos dLon
  let bearing := toDeg (atan2 y x)
  jsMod (bearing + 360) 360

/-- Function `calculateDistance(lat1, lon1, lat2, lon2)`: haversine distance in km
with Earth radius 6371 km. -/
noncomputable def calculateDistance (lat1 lon1 lat2 lon2 : ℝ) : ℝ :=
  let R : ℝ := 6371
  let dLat := toRad (lat2 - lat1)
  let dLon := toRad (lon2 - lon1)
  let a := Real.sin (dLat / 2) * Real.sin (dLat / 2) +
    Real.cos (toRad lat1) * Real.cos (toRad lat2) *
      Real.sin (dLon / 2) * Real.sin (dLon / 2)
  let c := 2 * atan2 (Real.sqrt a) (Real.sqrt (1 - a))
  R * c

/-- Function `calculateElevation(distance, altitude)`: elevation angle in degrees of a
target at `distance` km and `altitude` m. -/
noncomputable def calculateElevation (distance altitude : ℝ) : ℝ :=
  let distanceM := distance * 1000
  let elevationRad := atan2 altitude distanceM
  elevationRad * 180 / π

/-! ## Provider record mapping and filtering -/

/-- The JavaScript `||` operator specialised to strings (empty string is
falsy). -/
def jsStrOr (a b : String) : String := if a = "" then b else a

/-- One OpenSky state vector, restricted to the fields the route handler
destructures. -/
structure OpenSkyState where
  icao24 : String
  callsign : Option String
  origin_country : String
  longitude : Option ℝ
  latitude : Option ℝ
  baro_altitude : Option ℝ
  on_ground : Bool
  velocity : Option ℝ
  true_track : Option ℝ
  vertical_rate : Option ℝ
  geo_altitude : Option ℝ

/-- The enriched `FlightInfo` record produced by the API routes.  The last
three fields are the optional ADSB Exchange extras; the OpenSky mapping
leaves them unset. -/
structure FlightInfo where
  icao24 : String
  callsign : String
  origin_country : String
  latitude : ℝ
  longitude : ℝ
  altitude : ℝ
  velocity : Option ℝ
  heading : Option ℝ
  vertical_rate : Option ℝ
  on_ground : Bool
  bearing : ℝ
  distance : ℝ
  elevation : ℝ
  registration : Option String := none
  aircraft_type : Option String := none
  operator : Option String := none

/-- The body of the OpenSky `.map` callback: `null` for records with no
position, on ground, or below 100 m; otherwise the enriched record.  The
identical code appears in the `GET` handler of the OpenSky route and in
`fetchFromOpenSky` of the ADSB route. -/
noncomputable def openskyToFlight (lat lon : ℝ) (s : OpenSkyState) :
    Option FlightInfo :=
  match s.latitude, s.longitude with
  | some latitude, some longitude =>
    let altitude := s.geo_altitude.getD (s.baro_altitude.getD 0)
    if s.on_ground ∨ altitude < 100 then none
    else
      let bearing := calculateBearing lat lon latitude longitude
      let distance := calculateDistance lat lon latitude longitude
      let elevation := calculateElevation distance altitude
      some
        { icao24 := s.icao24
          callsign := jsStrOr (s.callsign.getD "").trim "Unknown"
          origin_country := s.origin_country
          latitude := latitude
          longitude := longitude
          altitude := altitude
          velocity := s.velocity
          heading := s.true_track
          vertical_rate := s.vertical_rate
          on_ground := s.on_ground
          bearing := bearing
          distance := distance
          elevation := elevation }
  | _, _ => none

/-- One ADSB Exchange aircraft record, restricted to the accessed fields.
Numeric fields absent from the JSON are `none`. -/
structure AdsbAircraft where
  hex : Option String
  flight : Option String
  r : Option String
  t : Option String
  ownOp : Option String
  dbFlags : Option ℝ
  lat : Option ℝ
  lon : Option ℝ
  alt_geom : Option ℝ
  alt_baro : Option ℝ
  gs : Option ℝ
  track : Option ℝ
  baro_rate : Option ℝ
  on_ground : Bool

/-- The body of the ADSB Exchange `.map` callback.  `!acLat || !acLon`
tests JavaScript falsiness, so a coordinate that is absent *or exactly 0*
is rejected; the altitude test uses the raw (feet) value, and the stored
altitude/velocity/rate are unit-converted. -/
noncomputable def adsbToFlight (lat lon : ℝ) (ac : AdsbAircraft) :
    Option FlightInfo :=
  let altitude := ac.alt_geom.getD (ac.alt_baro.getD 0)
  match ac.lat, ac.lon with
  | some acLat, some acLon =>
    if acLat = 0 ∨ acLon = 0 then none
    else if ac.on_ground ∨ altitude < 100 then none
    else
      let bearing := calculateBearing lat lon acLat acLon
      let distance := calculateDistance lat lon acLat acLon
      let elevation := calculateElevation distance (altitude * 0.3048)
      some
        { icao24 := jsStrOr (ac.hex.getD "") "unknown"
          callsign := jsStrOr (jsStrOr (ac.flight.getD "").trim
            (ac.r.getD "")) "Unknown"
          origin_country := if ac.dbFlags = some 1 then "Military" else ""
          latitude := acLat
          longitude := acLon
          altitude := altitude * 0.3048
          velocity := match ac.gs with
            | some gs => if gs = 0 then none else some (gs * 0.514444)
            | none => none
          heading := ac.track
          vertical_rate := match ac.baro_rate with
            | some br => if br = 0 then none else some (br * 0.00508)
            | none => none
          on_ground := ac.on_ground
          bearing := bearing
          distance := distance
          elevation := elevation
          registration := ac.r
          aircraft_type := ac.t
          operator := ac.ownOp }
  | _, _ => none

/-- The `.sort((a, b) => a.distance - b.distance)` comparator, as the
corresponding boolean `≤` on the distance field (JavaScript `sort` is a
stable sort consistent with this total preorder). -/
noncomputable def flightLE (a b : FlightInfo) : Bool :=
  decide (a.distance ≤ b.distance)

/-- The flight list returned by the OpenSky paths: map, drop the `null`s,
sort ascending by distance. -/
noncomputable def openskyFlights (lat lon : ℝ) (states : List OpenSkyState) :
    List FlightInfo :=
  (states.filterMap (openskyToFlight lat lon)).mergeSort flightLE

/-- The flight list returned by the ADSB Exchange path. -/
noncomputable def adsbFlights (lat lon : ℝ) (acs : List AdsbAircraft) :
    List FlightInfo :=
  (acs.filterMap (adsbToFlight lat lon)).mergeSort flightLE


/-- ADSB Exchange sample at latitude exactly 0 (a valid position on the
equator), airborne and high: excluded only because `!acLat` treats 0 as
falsy. -/
def sampleZeroLat : AdsbAircraft :=
  { hex := some "abc123", flight := some "TEST01", r := none, t := none,
    ownOp := none, dbFlags := none, lat := some 0, lon := some 10,
    alt_geom := some 10000, alt_baro := none, gs := none, track := none,
    baro_rate := none, on_ground := false }

/-- ADSB Exchange sample at 200 ft (≈61 m): kept by the code although it is
below 100 m, because the filter compares the raw feet value against 100. -/
def sampleLowFeet : AdsbAircraft :=
  { hex := some "def456", flight := some "TEST02", r := none, t := none,
    ownOp := none, dbFlags := none, lat := some 51, lon := some 1,
    alt_geom := some 200, alt_baro := none, gs := none, track := none,
    baro_rate := none, on_ground := false }

end WTF

namespace Client

/-! ## Client-side angle arithmetic (`part_002` and `part_003`)

These helpers are textually identical in both client pages and use only
field operations and comparisons, so they are embedded over `ℚ`. -/

/-- Truncation toward zero on `ℚ` (the JavaScript `%` operator). -/
def jsTruncQ (x : ℚ) : ℚ :=
  if 0 ≤ x then (⌊x⌋ : ℚ) else (⌈x⌉ : ℚ)

/-- The JavaScript remainder `a % b` on `ℚ`. -/
def jsModQ (a b : ℚ) : ℚ :=
  a - b * jsTruncQ (a / b)

/-- Function `normalizeAngle(angle)`: `((angle % 360) + 360) % 360`. -/
def normalizeAngle (angle : ℚ) : ℚ :=
  jsModQ (jsModQ angle 360 + 360) 360

/-- Function `angleDiff(a, b)`: signed angular difference wrapped to `(-180, 180]`. -/
def angleDiff (a b : ℚ) : ℚ :=
  let diff := normalizeAngle (a - b)
  if diff > 180 then diff - 360 else diff

/-- The client `FlightInfo` interface (the fields shared by both pages). -/
structure FlightInfo where
  icao24 : String
  callsign : String
  origin_country : String
  latitude : ℚ
  longitude : ℚ
  altitude : ℚ
  velocity : Option ℚ
  heading : Option ℚ
  vertical_rate : Option ℚ
  on_ground : Bool
  bearing : ℚ
  distance : ℚ
  elevation : ℚ
deriving DecidableEq, Repr

end Client

namespace Page2

/-! ## `smoothAngle` of `part_002` (no dead zone) -/

/-- Constant `SMOOTHING_FACTOR` of `part_002`. -/
def SMOOTHING_FACTOR : ℚ := 0.3

/-- Function `smoothAngle(current, target, factor)` of `part_002`: bootstrap
passthrough when `current` is null, otherwise exponential smoothing along
the shortest wrapped difference. -/
def smoothAngle (current : Option ℚ) (target factor : ℚ) : ℚ :=
  match current with
  | none => target
  | some current =>
    let diff := target - current
    let diff := if diff > 180 then diff - 360 else diff
    let diff := if diff < -180 then diff + 360 else diff
    Client.normalizeAngle (current + diff * factor)

end Page2

namespace Page3

/-! ## `smoothAngle` of `part_003` (with dead zone) -/

/-- Constant `SMOOTHING_FACTOR` of `part_003`. -/
def SMOOTHING_FACTOR : ℚ := 0.15

/-- Constant `DEAD_ZONE` of `part_003`. -/
def DEAD_ZONE : ℚ := 1.5

/-- Function `smoothAngle(current, target, factor)` of `part_003`: as in `part_002`
but returning `current` unchanged when the wrapped difference is inside the
dead zone. -/
def smoothAngle (current : Option ℚ) (target factor : ℚ) : ℚ :=
  match current with
  | none => target
  | some current =>
    let diff := target - current
    let diff := if diff > 180 then diff - 360 else diff
    let diff := if diff < -180 then diff + 360 else diff
    if |diff| < DEAD_ZONE then current
    else Client.normalizeAngle (current + diff * factor)

end Page3

namespace Client

/-! ## The pointing-matcher effect (identical in `part_002` and `part_003`) -/

/-- Constant `HEADING_TOLERANCE` (degrees). -/
def HEADING_TOLERANCE : ℚ := 30

/-- Constant `ELEVATION_TOLERANCE` (degrees). -/
def ELEVATION_TOLERANCE : ℚ := 20

/-- Comparison `score < bestScore`, where `bestScore` starts as `Infinity` (modelled
by `none`). -/
def ltOpt (s : ℚ) (bs : Option ℚ) : Bool :=
  bs.all fun b => decide (s < b)

/-- The `for (const flight of flights)` loop of the match effect, carrying
`bestMatch` and `bestScore`. -/
def matchLoop (h t : ℚ) : List FlightInfo → Option FlightInfo → Option ℚ →
    Option FlightInfo
  | [], best, _ => best
  | flight :: rest, best, bestScore =>
    let headingDiff := |angleDiff h flight.bearing|
    let elevationDiff := |t - flight.elevation|
    let score := headingDiff * 1.5 + elevationDiff
    if headingDiff < HEADING_TOLERANCE ∧ elevationDiff < ELEVATION_TOLERANCE ∧
        ltOpt score bestScore then
      matchLoop h t rest (some flight) (some score)
    else
      matchLoop h t rest best bestScore

/-- The match effect: `null` when not tracking, heading or tilt unset, or
the flight list empty; otherwise the loop starting from
`bestMatch = null, bestScore = Infinity`. -/
def matchFlight (isTracking : Bool) (compassHeading deviceTilt : Option ℚ)
    (flights : List FlightInfo) : Option FlightInfo :=
  match isTracking, compassHeading, deviceTilt, flights with
  | true, some h, some t, flight :: rest => matchLoop h t (flight :: rest) none none
  | _, _, _, _ => none

/-- Eligibility of one flight for the matcher: both differences strictly
inside their tolerances. -/
def elig (h t : ℚ) (f : FlightInfo) : Prop :=
  |angleDiff h f.bearing| < HEADING_TOLERANCE ∧
    |t - f.elevation| < ELEVATION_TOLERANCE

instance (h t : ℚ) (f : FlightInfo) : Decidable (elig h t f) := by
  unfold elig; infer_instance

/-- The matcher score of one flight: heading difference weighted 1.5, plus
elevation difference. -/
def score (h t : ℚ) (f : FlightInfo) : ℚ :=
  |angleDiff h f.bearing| * 1.5 + |t - f.elevation|

/-! ## Concrete matcher example from the spec: aircraft A and B -/

/-- Aircraft A of the spec example: bearing 95°, elevation 12°. -/
def planeA : FlightInfo :=
  { icao24 := "a1", callsign := "A", origin_country := "", latitude := 0,
    longitude := 0, altitude := 10000, velocity := none, heading := none,
    vertical_rate := none, on_ground := false, bearing := 95, distance := 20,
    elevation := 12 }

/-- Aircraft B of the spec example: bearing 100°, elevation 10°. -/
def planeB : FlightInfo :=
  { icao24 := "b2", callsign := "B", origin_country := "", latitude := 0,
    longitude := 0, altitude := 9000, velocity := none, heading := none,
    vertical_rate := none, on_ground := false, bearing := 100, distance := 30,
    elevation := 10 }

end Client

namespace Client

/-! ## Evaluation lemmas for the JS remainder on `ℚ` -/

theorem jsModQ_self_of_lt (a b : ℚ) (hb : 0 < b) (h0 : 0 ≤ a) (h1 : a < b) :
    jsModQ a b = a := by
  have hq0 : 0 ≤ a / b := div_nonneg h0 hb.le
  have hq1 : a / b < 1 := (div_lt_one hb).mpr h1
  unfold jsModQ jsTruncQ
  rw [if_pos hq0, show ⌊a / b⌋ = 0 from Int.floor_eq_zero_iff.mpr ⟨hq0, hq1⟩]
  simp

theorem jsModQ_sub_of_lt (a b : ℚ) (hb : 0 < b) (h0 : b ≤ a) (h1 : a < 2 * b) :
    jsModQ a b = a - b := by
  have hq0 : (1 : ℚ) ≤ a / b := (le_div_iff₀ hb).mpr (by linarith)
  have hq1 : a / b < 1 + 1 := by
    rw [div_lt_iff₀ hb]; linarith
  unfold jsModQ jsTruncQ
  rw [if_pos (by linarith : (0:ℚ) ≤ a / b),
    show ⌊a / b⌋ = 1 from Int.floor_eq_iff.mpr (by push_cast; exact ⟨hq0, hq1⟩)]
  push_cast
  ring

theorem jsModQ_self_of_neg (a b : ℚ) (hb : 0 < b) (h0 : -b < a) (h1 : a < 0) :
    jsModQ a b = a := by
  have hq0 : a / b < 0 := div_neg_of_neg_of_pos h1 hb
  have hq1 : (-1 : ℚ) < a / b := by
    rw [lt_div_iff₀ hb]; linarith
  unfold jsModQ jsTruncQ
  rw [if_neg (by linarith), show ⌈a / b⌉ = 0 from
    Int.ceil_eq_zero_iff.mpr ⟨hq1, hq0.le⟩]
  simp

theorem angleDiff_90_95 : angleDiff 90 95 = -5 := by
  unfold angleDiff normalizeAngle
  rw [show (90 : ℚ) - 95 = -5 by norm_num,
    jsModQ_self_of_neg (-5) 360 (by norm_num) (by norm_num) (by norm_num),
    show (-5 : ℚ) + 360 = 355 by norm_num,
    jsModQ_self_of_lt 355 360 (by norm_num) (by norm_num) (by norm_num)]
  norm_num

theorem angleDiff_90_100 : angleDiff 90 100 = -10 := by
  unfold angleDiff normalizeAngle
  rw [show (90 : ℚ) - 100 = -10 by norm_num,
    jsModQ_self_of_neg (-10) 360 (by norm_num) (by norm_num) (by norm_num),
    show (-10 : ℚ) + 360 = 350 by norm_num,
    jsModQ_self_of_lt 350 360 (by norm_num) (by norm_num) (by norm_num)]
  norm_num

/-! ## Structure of the matcher loop -/

theorem ltOpt_none (s : ℚ) : ltOpt s none = true := rfl

theorem ltOpt_some (s b : ℚ) : ltOpt s (some b) = true ↔ s < b := by
  simp [ltOpt]

theorem matchLoop_cons (h t : ℚ) (f : FlightInfo) (rest : List FlightInfo)
    (best : Option FlightInfo) (bs : Option ℚ) :
    matchLoop h t (f :: rest) best bs =
      if elig h t f ∧ ltOpt (score h t f) bs then
        matchLoop h t rest (some f) (some (score h t f))
      else matchLoop h t rest best bs := by
  by_cases hc : elig h t f ∧ ltOpt (score h t f) bs
  · rw [if_pos hc]
    obtain ⟨⟨h1, h2⟩, h3⟩ := hc
    show (if _ ∧ _ ∧ _ then _ else _) = _
    rw [if_pos ⟨h1, h2, h3⟩]
    rfl
  · rw [if_neg hc]
    show (if _ ∧ _ ∧ _ then _ else _) = _
    rw [if_neg fun ⟨h1, h2, h3⟩ => hc ⟨⟨h1, h2⟩, h3⟩]

/-- Once `bestMatch` is non-null the loop never returns null. -/
theorem matchLoop_some_ne_none (h t : ℚ) :
    ∀ (rest : List FlightInfo) (b : FlightInfo) (bs : Option ℚ),
      matchLoop h t rest (some b) bs ≠ none := by
  intro rest
  induction rest with
  | nil => intro b bs; simp [matchLoop]
  | cons f rest ih =>
    intro b bs
    rw [matchLoop_cons]
    split
    · exact ih f _
    · exact ih b bs

/-- Loop invariant: starting from a stored best `b`, the loop returns either
`b` itself (when nothing in the remainder strictly beats it) or the first
strict improvement of the eventual minimum. -/
theorem matchLoop_spec (h t : ℚ) :
    ∀ (rest : List FlightInfo) (b : FlightInfo),
      ∃ m, matchLoop h t rest (some b) (some (score h t b)) = some m ∧
        score h t m ≤ score h t b ∧
        ((m = b ∧ ∀ f ∈ rest, elig h t f → score h t b ≤ score h t f) ∨
         (∃ l1 l2, rest = l1 ++ m :: l2 ∧ elig h t m ∧
            score h t m < score h t b ∧
            (∀ f ∈ l1, elig h t f → score h t m < score h t f) ∧
            (∀ f ∈ l2, elig h t f → score h t m ≤ score h t f))) := by
  intro rest
  induction rest with
  | nil =>
    intro b
    exact ⟨b, rfl, le_refl _, Or.inl ⟨rfl, by simp⟩⟩
  | cons f rest ih =>
    intro b
    rw [matchLoop_cons]
    by_cases hc : elig h t f ∧ score h t f < score h t b
    · rw [if_pos ⟨hc.1, (ltOpt_some _ _).mpr hc.2⟩]
      obtain ⟨m, hm, hle, hcase⟩ := ih f
      refine ⟨m, hm, hle.trans hc.2.le, Or.inr ?_⟩
      rcases hcase with ⟨rfl, hbound⟩ | ⟨l1, l2, rfl, hel, hlt, hl1, hl2⟩
      · exact ⟨[], rest, rfl, hc.1, hc.2, by simp, hbound⟩
      · exact ⟨f :: l1, l2, rfl, hel, hlt.trans hc.2,
          fun g hg hge => by
            rcases List.mem_cons.mp hg with rfl | hg'
            · exact hlt
            · exact hl1 g hg' hge,
          hl2⟩
    · have hcond : ¬(elig h t f ∧ ltOpt (score h t f) (some (score h t b))) := by
        intro ⟨h1, h2⟩
        exact hc ⟨h1, (ltOpt_some _ _).mp h2⟩
      rw [if_neg hcond]
      obtain ⟨m, hm, hle, hcase⟩ := ih b
      refine ⟨m, hm, hle, ?_⟩
      rcases hcase with ⟨rfl, hbound⟩ | ⟨l1, l2, rfl, hel, hlt, hl1, hl2⟩
      · refine Or.inl ⟨rfl, fun g hg hge => ?_⟩
        rcases List.mem_cons.mp hg with rfl | hg'
        · by_contra hlt'
          exact hc ⟨hge, lt_of_not_le hlt'⟩
        · exact hbound g hg' hge
      · refine Or.inr ⟨f :: l1, l2, rfl, hel, hlt, fun g hg hge => ?_, hl2⟩
        rcases List.mem_cons.mp hg with rfl | hg'
        · by_cases hgb : score h t g < score h t b
          · exact absurd ⟨hge, hgb⟩ hc
          · exact hlt.trans_le (le_of_not_lt hgb)
        · exact hl1 g hg' hge

/-- From the initial null state, an eligible candidate guarantees the loop
returns the first eligible flight of minimum score. -/
theorem matchLoop_none_spec (h t : ℚ) :
    ∀ (rest : List FlightInfo), (∃ f ∈ rest, elig h t f) →
      ∃ m l1 l2, matchLoop h t rest none none = some m ∧
        rest = l1 ++ m :: l2 ∧ elig h t m ∧
        (∀ f ∈ l1, elig h t f → score h t m < score h t f) ∧
        (∀ f ∈ l2, elig h t f → score h t m ≤ score h t f) := by
  intro rest
  induction rest with
  | nil => rintro ⟨f, hf, -⟩; exact absurd hf (List.not_mem_nil f)
  | cons f rest ih =>
    intro hex
    rw [matchLoop_cons]
    by_cases hf : elig h t f
    · rw [if_pos ⟨hf, by rw [ltOpt_none]⟩]
      obtain ⟨m, hm, hle, hcase⟩ := matchLoop_spec h t rest f
      rcases hcase with ⟨rfl, hbound⟩ | ⟨l1, l2, rfl, hel, hlt, hl1, hl2⟩
      · exact ⟨m, [], rest, hm, rfl, hf, by simp, hbound⟩
      · refine ⟨m, f :: l1, l2, hm, rfl, hel, fun g hg hge => ?_, hl2⟩
        rcases List.mem_cons.mp hg with rfl | hg'
        · exact hlt
        · exact hl1 g hg' hge
    · have hcond : ¬(elig h t f ∧ ltOpt (score h t f) none) :=
        fun ⟨h1, _⟩ => hf h1
      rw [if_neg hcond]
      obtain ⟨g, hg, hgel⟩ := hex
      rcases List.mem_cons.mp hg with rfl | hg'
      · exact absurd hgel hf
      · obtain ⟨m, l1, l2, hm, hdec, hel, hl1, hl2⟩ := ih ⟨g, hg', hgel⟩
        refine ⟨m, f :: l1, l2, hm, by simp [hdec], hel,
          fun g' hg' hge' => ?_, hl2⟩
        rcases List.mem_cons.mp hg' with rfl | hg''
        · exact absurd hge' hf
        · exact hl1 g' hg'' hge'

/-- The loop returns null exactly when no flight is eligible. -/
theorem matchLoop_eq_none_iff (h t : ℚ) :
    ∀ (rest : List FlightInfo),
      matchLoop h t rest none none = none ↔ ∀ f ∈ rest, ¬ elig h t f := by
  intro rest
  induction rest with
  | nil => simp [matchLoop]
  | cons f rest ih =>
    rw [matchLoop_cons]
    by_cases hf : elig h t f
    · rw [if_pos ⟨hf, by rw [ltOpt_none]⟩]
      simp only [List.mem_cons]
      constructor
      · intro hn
        exact absurd hn (matchLoop_some_ne_none h t rest f _)
      · intro hall
        exact absurd hf (hall f (Or.inl rfl))
    · rw [if_neg fun ⟨h1, _⟩ => hf h1]
      rw [ih]
      simp only [List.mem_cons]
      constructor
      · rintro hall g (rfl | hg)
        · exact hf
        · exact hall g hg
      · intro hall g hg
        exact hall g (Or.inr hg)

/-! ## Evaluation of `smoothAngle(359, 2, 0.5)` -/

theorem smoothAngle359_eval2 : Page2.smoothAngle (some 359) 2 (1/2) = 1/2 := by
  unfold Page2.smoothAngle
  norm_num
  unfold normalizeAngle
  rw [jsModQ_sub_of_lt (721/2) 360 (by norm_num) (by norm_num) (by norm_num),
    show (721/2 : ℚ) - 360 + 360 = 721/2 by norm_num,
    jsModQ_sub_of_lt (721/2) 360 (by norm_num) (by norm_num) (by norm_num)]
  norm_num

theorem smoothAngle359_eval3 : Page3.smoothAngle (some 359) 2 (1/2) = 1/2 := by
  norm_num [Page3.smoothAngle, Page3.DEAD_ZONE]
  unfold normalizeAngle
  rw [jsModQ_sub_of_lt (721/2) 360 (by norm_num) (by norm_num) (by norm_num),
    show (721/2 : ℚ) - 360 + 360 = 721/2 by norm_num,
    jsModQ_sub_of_lt (721/2) 360 (by norm_num) (by norm_num) (by norm_num)]
  norm_num

end Client

/-- Claim C1: for every heading, tilt and aircraft list the matcher selects,
among aircraft with heading difference < 30° and elevation difference < 20°,
the one minimising `headingDiff·1.5 + elevationDiff`, ties resolved to the
earlier list position (every eligible aircraft before the winner has strictly
larger score); in particular, for heading 90 and tilt 10 with A at bearing
95/elevation 12 and B at bearing 100/elevation 10, the matcher returns A. -/
theorem matcher_selects_min_score_first (h t : ℚ) (fl : List Client.FlightInfo)
    (f0 : Client.FlightInfo) (hmem : f0 ∈ fl) (h0 : Client.elig h t f0) :
    (∃ m l1 l2, Client.matchFlight true (some h) (some t) fl = some m ∧
      fl = l1 ++ m :: l2 ∧ Client.elig h t m ∧
      (∀ f ∈ l1, Client.elig h t f → Client.score h t m < Client.score h t f) ∧
      (∀ f ∈ fl, Client.elig h t f → Client.score h t m ≤ Client.score h t f)) ∧
    Client.matchFlight true (some 90) (some 10) [Client.planeA, Client.planeB] =
      some Client.planeA := by
  constructor
  · cases fl with
    | nil => exact absurd hmem (List.not_mem_nil f0)
    | cons g gs =>
      obtain ⟨m, l1, l2, hm, hdec, hel, hl1, hl2⟩ :=
        Client.matchLoop_none_spec h t (g :: gs) ⟨f0, hmem, h0⟩
      refine ⟨m, l1, l2, hm, hdec, hel, hl1, ?_⟩
      intro f hf hfe
      rw [hdec] at hf
      rcases List.mem_append.mp hf with hf1 | hf2
      · exact (hl1 f hf1 hfe).le
      · rcases List.mem_cons.mp hf2 with rfl | hf3
        · exact le_refl _
        · exact hl2 f hf3 hfe
  · show Client.matchLoop 90 10 [Client.planeA, Client.planeB] none none = _
    rw [Client.matchLoop_cons, if_pos ?hA, Client.matchLoop_cons, if_neg ?hB]
    · rfl
    case hA =>
      refine ⟨⟨?_, ?_⟩, by rw [Client.ltOpt_none]⟩
      · rw [Client.planeA]
        norm_num [Client.angleDiff_90_95, Client.HEADING_TOLERANCE]
      · rw [Client.planeA]
        norm_num [Client.ELEVATION_TOLERANCE]
    case hB =>
      rintro ⟨-, hlt⟩
      rw [Client.ltOpt_some] at hlt
      rw [Client.score, Client.score, Client.planeA, Client.planeB] at hlt
      norm_num [Client.angleDiff_90_95, Client.angleDiff_90_100] at hlt

/-- Witness for `matcher_selects_min_score_first` at the concrete example
from the spec. -/
theorem matcher_selects_min_score_first_witness :
    Client.planeA ∈ [Client.planeA, Client.planeB] ∧
    Client.elig 90 10 Client.planeA ∧
    ((∃ m l1 l2,
        Client.matchFlight true (some 90) (some 10)
            [Client.planeA, Client.planeB] = some m ∧
          [Client.planeA, Client.planeB] = l1 ++ m :: l2 ∧
          Client.elig 90 10 m ∧
          (∀ f ∈ l1, Client.elig 90 10 f →
            Client.score 90 10 m < Client.score 90 10 f) ∧
          (∀ f ∈ [Client.planeA, Client.planeB], Client.elig 90 10 f →
            Client.score 90 10 m ≤ Client.score 90 10 f)) ∧
      Client.matchFlight true (some 90) (some 10)
          [Client.planeA, Client.planeB] = some Client.planeA) := by
  have hmem : Client.planeA ∈ [Client.planeA, Client.planeB] :=
    List.mem_cons_self _ _
  have helig : Client.elig 90 10 Client.planeA := by
    constructor
    · rw [Client.planeA]
      norm_num [Client.angleDiff_90_95, Client.HEADING_TOLERANCE]
    · rw [Client.planeA]
      norm_num [Client.ELEVATION_TOLERANCE]
  exact ⟨hmem, helig,
    matcher_selects_min_score_first 90 10 _ Client.planeA hmem helig⟩

/-- Claim C2, counterexample: `smoothAngle(359, 2, 0.5)` does *not* return a
value approximately 1.5: in both pages it returns exactly 0.5, which is a
full degree away from the claimed 1.5. -/
theorem smoothAngle_359_not_approx_one_half :
    Page2.smoothAngle (some 359) 2 (1/2) = 1/2 ∧
    Page3.smoothAngle (some 359) 2 (1/2) = 1/2 ∧
    ¬ |Page2.smoothAngle (some 359) 2 (1/2) - 1.5| < 1/2 := by
  refine ⟨Client.smoothAngle359_eval2, Client.smoothAngle359_eval3, ?_⟩
  rw [Client.smoothAngle359_eval2]
  norm_num

/-- Claim C2, amended: `smoothAngle(359, 2, 0.5)` moves forward through 0
(the result lies in `[0, 2)`, between north and the target) and returns
exactly 0.5 — 1.5° of forward travel from 359° — and in particular is far
from 180.5 (the long way around). -/
theorem smoothAngle_359_wraps_forward :
    Page2.smoothAngle (some 359) 2 (1/2) = 1/2 ∧
    Page3.smoothAngle (some 359) 2 (1/2) = 1/2 ∧
    0 ≤ Page2.smoothAngle (some 359) 2 (1/2) ∧
    Page2.smoothAngle (some 359) 2 (1/2) < 2 ∧
    ¬ |Page2.smoothAngle (some 359) 2 (1/2) - 180.5| < 90 := by
  refine ⟨Client.smoothAngle359_eval2, Client.smoothAngle359_eval3, ?_, ?_, ?_⟩ <;>
    rw [Client.smoothAngle359_eval2] <;> norm_num

/-- Claim C4: while tracking, the matcher returns none exactly when there is
no eligible candidate: when the smoothed heading or tilt is unset the
condition is vacuous, and otherwise every aircraft in the list (possibly
none at all) must fail the tolerance test. -/
theorem matcher_none_iff_no_eligible (ch dt : Option ℚ)
    (fl : List Client.FlightInfo) :
    Client.matchFlight true ch dt fl = none ↔
      ∀ h t, ch = some h → dt = some t → ∀ f ∈ fl, ¬ Client.elig h t f := by
  cases ch with
  | none => simp [Client.matchFlight]
  | some h =>
    cases dt with
    | none => simp [Client.matchFlight]
    | some t =>
      cases fl with
      | nil => simp [Client.matchFlight]
      | cons g gs =>
        show Client.matchLoop h t (g :: gs) none none = none ↔ _
        rw [Client.matchLoop_eq_none_iff]
        constructor
        · rintro hall h' t' ⟨rfl⟩ ⟨rfl⟩
          exact hall
        · intro hall
          exact hall h t rfl rfl

/-- Claim C8: when the current smoothed value is unset, `smoothAngle` returns
the target directly for every target and factor (both page variants); in
particular `smoothAngle(null, 45, 0.3) = 45`. -/
theorem smoothAngle_bootstrap_passthrough (target factor : ℚ) :
    Page2.smoothAngle none target factor = target ∧
    Page3.smoothAngle none target factor = target ∧
    Page2.smoothAngle none 45 0.3 = 45 :=
  ⟨rfl, rfl, rfl⟩

namespace WTF

/-! ## Range facts about `atan2` and the JS remainder -/

theorem atan2_mem_Ioc (y x : ℝ) : atan2 y x ∈ Set.Ioc (-π) π := by
  have hpi := pi_pos
  unfold atan2
  split_ifs with hx hx' hy hy' hy''
  · constructor
    · have := neg_pi_div_two_lt_arctan (y / x)
      linarith
    · have := arctan_lt_pi_div_two (y / x)
      linarith
  · have harc : arctan (y / x) ≤ 0 := by
      have hyx : y / x ≤ 0 := div_nonpos_of_nonneg_of_nonpos hy (le_of_lt hx')
      calc arctan (y / x) ≤ arctan 0 := arctan_strictMono.monotone hyx
        _ = 0 := arctan_zero
    have := neg_pi_div_two_lt_arctan (y / x)
    constructor <;> linarith
  · have harc : 0 < arctan (y / x) := by
      have hyx : 0 < y / x :=
        div_pos_iff.mpr (Or.inr ⟨lt_of_not_le hy, hx'⟩)
      calc (0:ℝ) = arctan 0 := arctan_zero.symm
        _ < arctan (y / x) := arctan_strictMono hyx
    have := arctan_lt_pi_div_two (y / x)
    constructor <;> linarith
  · constructor <;> linarith
  · constructor <;> linarith
  · constructor <;> linarith

theorem atan2_nonneg (y x : ℝ) (hy : 0 ≤ y) : 0 ≤ atan2 y x := by
  have hpi := pi_pos
  unfold atan2
  split_ifs with hx hx' hy' hy1
  · have hyx : 0 ≤ y / x := div_nonneg hy (le_of_lt hx)
    calc (0:ℝ) = arctan 0 := arctan_zero.symm
      _ ≤ arctan (y / x) := arctan_strictMono.monotone hyx
  · have := neg_pi_div_two_lt_arctan (y / x)
    linarith
  · linarith
  · linarith
  · exact le_refl _

theorem jsMod_nonneg_lt (a b : ℝ) (hb : 0 < b) (ha : 0 < a) :
    0 ≤ jsMod a b ∧ jsMod a b < b := by
  have hq : 0 ≤ a / b := div_nonneg ha.le hb.le
  have h1 : (⌊a / b⌋ : ℝ) * b ≤ a := by
    rw [← le_div_iff₀ hb]
    exact Int.floor_le _
  have h2 : a < ((⌊a / b⌋ : ℝ) + 1) * b := by
    rw [← div_lt_iff₀ hb]
    exact Int.lt_floor_add_one _
  unfold jsMod jsTrunc
  rw [if_pos hq, mul_comm]
  constructor <;> nlinarith

theorem toDeg_pos_shift (r : ℝ) (h : r ∈ Set.Ioc (-π) π) : 0 < toDeg r + 360 := by
  have hpi := pi_pos
  have hq : -1 < r / π := by
    rw [lt_div_iff₀ hpi]
    linarith [h.1]
  have : toDeg r = r / π * 180 := by
    unfold toDeg
    ring
  rw [this]
  nlinarith

theorem bearing_wrap_mem (r : ℝ) (h : r ∈ Set.Ioc (-π) π) :
    0 ≤ jsMod (toDeg r + 360) 360 ∧ jsMod (toDeg r + 360) 360 < 360 :=
  jsMod_nonneg_lt _ 360 (by norm_num) (toDeg_pos_shift r h)

/-- Claim C5: for all real inputs, `calculateBearing` lands in `[0, 360)` and
`calculateDistance` is non-negative. -/
theorem bearing_in_range_and_distance_nonneg (lat1 lon1 lat2 lon2 : ℝ) :
    (0 ≤ calculateBearing lat1 lon1 lat2 lon2 ∧
      calculateBearing lat1 lon1 lat2 lon2 < 360) ∧
    0 ≤ calculateDistance lat1 lon1 lat2 lon2 := by
  constructor
  · simp only [calculateBearing]
    exact bearing_wrap_mem _ (atan2_mem_Ioc _ _)
  · simp only [calculateDistance]
    have h := atan2_nonneg (Real.sqrt (Real.sin (toRad (lat2 - lat1) / 2) *
        Real.sin (toRad (lat2 - lat1) / 2) +
        Real.cos (toRad lat1) * Real.cos (toRad lat2) *
          Real.sin (toRad (lon2 - lon1) / 2) *
          Real.sin (toRad (lon2 - lon1) / 2)))
      (Real.sqrt (1 - (Real.sin (toRad (lat2 - lat1) / 2) *
        Real.sin (toRad (lat2 - lat1) / 2) +
        Real.cos (toRad lat1) * Real.cos (toRad lat2) *
          Real.sin (toRad (lon2 - lon1) / 2) *
          Real.sin (toRad (lon2 - lon1) / 2))))
      (Real.sqrt_nonneg _)
    nlinarith

/-- Claim C6: `calculateDistance` is reflexively zero and symmetric in its two
points. -/
theorem distance_refl_and_symm :
    (∀ lat lon : ℝ, calculateDistance lat lon lat lon = 0) ∧
    (∀ lat1 lon1 lat2 lon2 : ℝ,
      calculateDistance lat1 lon1 lat2 lon2 =
        calculateDistance lat2 lon2 lat1 lon1) := by
  constructor
  · intro lat lon
    simp only [calculateDistance, sub_self]
    norm_num [toRad, atan2, Real.arctan_zero]
  · intro lat1 lon1 lat2 lon2
    simp only [calculateDistance]
    have e1 : toRad (lat1 - lat2) = -toRad (lat2 - lat1) := by
      unfold toRad; ring
    have e2 : toRad (lon1 - lon2) = -toRad (lon2 - lon1) := by
      unfold toRad; ring
    have hA : Real.sin (toRad (lat1 - lat2) / 2) *
          Real.sin (toRad (lat1 - lat2) / 2) +
        Real.cos (toRad lat2) * Real.cos (toRad lat1) *
          Real.sin (toRad (lon1 - lon2) / 2) *
          Real.sin (toRad (lon1 - lon2) / 2) =
        Real.sin (toRad (lat2 - lat1) / 2) *
          Real.sin (toRad (lat2 - lat1) / 2) +
        Real.cos (toRad lat1) * Real.cos (toRad lat2) *
          Real.sin (toRad (lon2 - lon1) / 2) *
          Real.sin (toRad (lon2 - lon1) / 2) := by
      rw [e1, e2]
      simp only [neg_div, Real.sin_neg]
      ring
    rw [hA]

/-- Claim C7: `calculateElevation` is `atan2(altitudeM, distanceKm·1000)` in
degrees, returning 90° directly overhead (distance 0, altitude 1000) and 0°
at the horizon (distance 100, altitude 0), with no division-by-zero case. -/
theorem elevation_overhead_and_horizon :
    calculateElevation 0 1000 = 90 ∧ calculateElevation 100 0 = 0 ∧
    ∀ d a : ℝ, calculateElevation d a = atan2 a (d * 1000) * 180 / π := by
  refine ⟨?_, ?_, fun d a => rfl⟩
  · show atan2 1000 (0 * 1000) * 180 / π = 90
    rw [zero_mul]
    have h2 : atan2 1000 0 = π / 2 := by
      unfold atan2
      norm_num
    rw [h2]
    field_simp
    ring
  · show atan2 0 (100 * 1000) * 180 / π = 0
    have h0 : atan2 0 (100 * 1000) = 0 := by
      unfold atan2
      rw [if_pos (by norm_num : (0:ℝ) < 100 * 1000), zero_div, arctan_zero]
    rw [h0]
    simp

end WTF

namespace WTF

/-! ## Characterisation of the provider filters -/

theorem openskyToFlight_eq_none_iff (lat lon : ℝ) (s : OpenSkyState) :
    openskyToFlight lat lon s = none ↔
      s.latitude = none ∨ s.longitude = none ∨ s.on_ground = true ∨
        s.geo_altitude.getD (s.baro_altitude.getD 0) < 100 := by
  rcases hlat : s.latitude with _ | la
  · simp [openskyToFlight, hlat]
  · rcases hlon : s.longitude with _ | lo
    · simp [openskyToFlight, hlat, hlon]
    · simp only [openskyToFlight, hlat, hlon]
      split_ifs with hc
      · simp only [hlat, hlon]
        simp only [reduceCtorEq, false_or]
        exact iff_of_true trivial hc
      · push_neg at hc
        simp [hlat, hlon, hc.1, hc.2, not_lt.mpr hc.2]

theorem adsbToFlight_eq_none_iff (lat lon : ℝ) (ac : AdsbAircraft) :
    adsbToFlight lat lon ac = none ↔
      ac.lat = none ∨ ac.lon = none ∨ ac.lat = some 0 ∨ ac.lon = some 0 ∨
        ac.on_ground = true ∨ ac.alt_geom.getD (ac.alt_baro.getD 0) < 100 := by
  rcases hlat : ac.lat with _ | la
  · simp [adsbToFlight, hlat]
  · rcases hlon : ac.lon with _ | lo
    · simp [adsbToFlight, hlat, hlon]
    · simp only [adsbToFlight, hlat, hlon]
      split_ifs with h1 h2
      · simp only [hlat, hlon, reduceCtorEq, false_or, Option.some.injEq]
        exact iff_of_true trivial (by tauto)
      · simp only [hlat, hlon, reduceCtorEq, false_or, Option.some.injEq]
        exact iff_of_true trivial (by tauto)
      · push_neg at h1 h2
        simp [hlat, hlon, h1.1, h1.2, h2.1, not_lt.mpr h2.2]

end WTF

namespace WTF

/-- Claim C3, counterexample: in the ADSB Exchange path the filter is not
"missing position, altitude < 100 m, or on ground": a record at latitude 0
with valid position, 3048 m altitude and airborne is excluded, while a
record at 200 ft (60.96 m < 100 m) is kept. -/
theorem adsb_filter_deviates :
    (adsbToFlight 51 0 sampleZeroLat = none ∧
      sampleZeroLat.lat = some 0 ∧ sampleZeroLat.on_ground = false ∧
      (100 : ℝ) ≤ sampleZeroLat.alt_geom.getD 0 * 0.3048) ∧
    (∃ f, adsbToFlight 51 0 sampleLowFeet = some f ∧ f.altitude < 100) := by
  constructor
  · refine ⟨?_, rfl, rfl, by norm_num [sampleZeroLat]⟩
    simp [adsbToFlight, sampleZeroLat]
  · simp only [adsbToFlight, sampleLowFeet]
    rw [if_neg (by norm_num), if_neg (by norm_num)]
    exact ⟨_, rfl, by norm_num⟩

/-- Claim C3, amended: the OpenSky paths exclude exactly the records with
null position, on ground, or altitude (geo ?? baro ?? 0, metres) below
100; the ADSB Exchange path excludes exactly the records with an absent
*or zero* coordinate, on ground, or raw altitude (geo ?? baro ?? 0, feet)
below 100. -/
theorem provider_filters_characterised :
    (∀ (lat lon : ℝ) (s : OpenSkyState),
      openskyToFlight lat lon s = none ↔
        s.latitude = none ∨ s.longitude = none ∨ s.on_ground = true ∨
          s.geo_altitude.getD (s.baro_altitude.getD 0) < 100) ∧
    (∀ (lat lon : ℝ) (ac : AdsbAircraft),
      adsbToFlight lat lon ac = none ↔
        ac.lat = none ∨ ac.lon = none ∨ ac.lat = some 0 ∨ ac.lon = some 0 ∨
          ac.on_ground = true ∨ ac.alt_geom.getD (ac.alt_baro.getD 0) < 100) :=
  ⟨openskyToFlight_eq_none_iff, adsbToFlight_eq_none_iff⟩

/-- Claim C10: in the ADSB Exchange path, a record whose latitude or
longitude is exactly 0 is excluded even though 0 is a valid coordinate,
because the missing-position check tests falsiness. -/
theorem adsb_zero_coordinate_excluded (lat lon : ℝ) (ac : AdsbAircraft)
    (h : ac.lat = some 0 ∨ ac.lon = some 0) :
    adsbToFlight lat lon ac = none := by
  rcases h with h | h
  · rcases hlon : ac.lon with _ | lo
    · simp [adsbToFlight, h, hlon]
    · simp [adsbToFlight, h, hlon]
  · rcases hlat : ac.lat with _ | la
    · simp [adsbToFlight, hlat, h]
    · simp [adsbToFlight, hlat, h]

/-- Witness for `adsb_zero_coordinate_excluded` at the equator sample. -/
theorem adsb_zero_coordinate_excluded_witness :
    (sampleZeroLat.lat = some 0 ∨ sampleZeroLat.lon = some 0) ∧
    adsbToFlight 51 0 sampleZeroLat = none :=
  ⟨Or.inl rfl, adsb_zero_coordinate_excluded 51 0 sampleZeroLat (Or.inl rfl)⟩

/-- Claim C9: the flight lists returned by both provider paths are sorted by
ascending distance: every adjacent pair is ordered by `distance ≤`. -/
theorem flights_sorted_ascending_distance (lat lon : ℝ)
    (states : List OpenSkyState) (acs : List AdsbAircraft) :
    (openskyFlights lat lon states).Chain'
        (fun a b => a.distance ≤ b.distance) ∧
    (adsbFlights lat lon acs).Chain'
        (fun a b => a.distance ≤ b.distance) := by
  have htrans : ∀ a b c : FlightInfo, flightLE a b → flightLE b c →
      flightLE a c := by
    intro a b c hab hbc
    simp only [flightLE, decide_eq_true_eq] at *
    exact le_trans hab hbc
  have htotal : ∀ a b : FlightInfo, flightLE a b || flightLE b a := by
    intro a b
    simp only [flightLE, Bool.or_eq_true, decide_eq_true_eq]
    exact le_total _ _
  constructor <;>
  · refine List.Pairwise.chain' (List.Pairwise.imp ?_
      (List.sorted_mergeSort htrans htotal _))
    intro a b hab
    simpa [flightLE] using hab

end WTF
